import Mathlib

/-!
Verification development for the `linuxrouter`-style Mininet example script
(`sample.py`).  The script declares a fixed topology in `NetworkTopo.build`,
specializes `Node` into `LinuxRouter` whose `config`/`terminate` hooks run
`sysctl` commands, and drives the lifecycle in `run()`.  We embed the
declarative topology as a list of builder calls, the lifecycle hooks as event
traces over a per-namespace state, and `run()` as an ordered step list, then
prove the frozen claims about them.
-/

namespace Sample

/-! ## Small executable helpers for CIDR strings -/

/-- Split a character list at every occurrence of `c` (like Python's
`str.split(c)`). -/
def splitOnChar (c : Char) : List Char → List (List Char)
  | [] => [[]]
  | x :: xs =>
    let r := splitOnChar c xs
    if x = c then [] :: r
    else
      match r with
      | [] => [[x]]
      | y :: ys => (x :: y) :: ys

/-- Accumulating decimal parser over characters. -/
def natOfDigitsAux : List Char → Nat → Option Nat
  | [], acc => some acc
  | c :: cs, acc =>
    if c.isDigit then natOfDigitsAux cs (acc * 10 + (c.toNat - 48)) else none

/-- Parse a non-empty decimal digit string. -/
def natOfDigits : List Char → Option Nat
  | [] => none
  | c :: cs => natOfDigitsAux (c :: cs) 0

/-- An IPv4 address as four octets. -/
structure Ipv4 where
  a : Nat
  b : Nat
  c : Nat
  d : Nat
deriving DecidableEq, Repr

/-- Parse a dotted quad `a.b.c.d` given as a character list. -/
def parseQuadCs (cs : List Char) : Option Ipv4 :=
  match splitOnChar '.' cs with
  | [w, x, y, z] =>
    match natOfDigits w, natOfDigits x, natOfDigits y, natOfDigits z with
    | some a, some b, some c, some d => some ⟨a, b, c, d⟩
    | _, _, _, _ => none
  | _ => none

/-- Parse a CIDR string `a.b.c.d/n` into address and mask length. -/
def parseCidr (s : String) : Option (Ipv4 × Nat) :=
  match splitOnChar '/' s.data with
  | [addr, len] =>
    match parseQuadCs addr, natOfDigits len with
    | some ip, some n => some (ip, n)
    | _, _ => none
  | _ => none

/-- The 32-bit value of an IPv4 address. -/
def toNat32 (ip : Ipv4) : Nat :=
  ((ip.a * 256 + ip.b) * 256 + ip.c) * 256 + ip.d

/-- The network number of `ip` under a mask of length `len`. -/
def networkOf (ip : Ipv4) (len : Nat) : Nat :=
  toNat32 ip / 2 ^ (32 - len) * 2 ^ (32 - len)

/-- Do two CIDR strings lie in the same /24 subnet? -/
def same24 (s t : String) : Bool :=
  match parseCidr s, parseCidr t with
  | some (ip, _), some (jp, _) => networkOf ip 24 == networkOf jp 24
  | _, _ => false

/-- Parse a Mininet `defaultRoute` string of the form `via a.b.c.d`. -/
def gatewayOf (dr : String) : Option Ipv4 :=
  match splitOnChar ' ' dr.data with
  | [v, g] => if v = ['v', 'i', 'a'] then parseQuadCs g else none
  | _ => none

/-- Are all elements of the list pairwise distinct? -/
def allDistinct [DecidableEq α] : List α → Bool
  | [] => true
  | x :: xs => !(xs.contains x) && allDistinct xs

/-- Deduplication keeping first occurrences, with an accumulator of elements
already seen. -/
def dedupAux [DecidableEq α] : List α → List α → List α
  | _, [] => []
  | seen, x :: xs =>
    if seen.contains x then dedupAux seen xs
    else x :: dedupAux (x :: seen) xs

/-- Remove duplicates, keeping the first occurrence of each element. -/
def dedupKeepFirst [DecidableEq α] (l : List α) : List α := dedupAux [] l

/-! ## Data model: the builder calls issued by `NetworkTopo.build` -/

/-- The node class passed to the Topo API: plain `addNode` with
`cls=LinuxRouter`, or the `addHost`/`addSwitch` convenience wrappers. -/
inductive NodeCls
  | linuxRouter
  | host
  | switch
deriving DecidableEq, Repr

/-- One declarative call recorded by the builder, in source order.
`addLink s n intfName2 params2ip` mirrors
`self.addLink(s, n, intfName2=..., params2={'ip': ...})`: the first endpoint
gets a default unnamed interface, the second endpoint gets the named
interface with the optional explicit IP. -/
inductive TopoDecl
  | addNode (name : String) (cls : NodeCls) (ip : Option String)
      (defaultRoute : Option String)
  | addLink (node1 node2 : String) (intfName2 : Option String)
      (params2ip : Option String)
deriving DecidableEq, Repr

/-- The keyword arguments `**_opts` accepted (and ignored) by `build`. -/
structure Opts where
  kwargs : List (String × String)
deriving DecidableEq, Repr

/-- The topology declared by `NetworkTopo.build` in `sample.py`, as the
ordered sequence of Topo API calls the source makes. -/
def NetworkTopo.build (_opts : Opts) : List TopoDecl :=
  let defaultIP := "10.0.0.1/24"
  [ .addNode "r0" .linuxRouter (some defaultIP) none,
    .addNode "r1" .linuxRouter (some "10.0.1.1/24") none,
    .addNode "s1" .switch none none,
    .addNode "s2" .switch none none,
    .addNode "s3" .switch none none,
    .addNode "s4" .switch none none,
    .addLink "s1" "r0" (some "r0-eth1") (some defaultIP),
    .addLink "s2" "r0" (some "r0-eth2") (some "10.0.2.1/24"),
    .addLink "s3" "r1" (some "r1-eth1") (some "10.0.1.1/24"),
    .addLink "s4" "r1" (some "r1-eth2") (some "10.0.3.1/24"),
    .addNode "h1" .host (some "10.0.0.100/24") (some "via 10.0.0.1"),
    .addNode "h2" .host (some "10.0.2.100/24") (some "via 10.0.2.1"),
    .addLink "s1" "h1" (some "h1-eth0") none,
    .addLink "s2" "h2" (some "h2-eth0") none,
    .addLink "s3" "h1" (some "h1-eth1") (some "10.0.1.100/24"),
    .addLink "s4" "h2" (some "h2-eth1") (some "10.0.3.100/24") ]

/-- The build as invoked by `run()` (no keyword arguments). -/
def theTopo : List TopoDecl := NetworkTopo.build ⟨[]⟩

/-! ## Derived views of the declared topology -/

/-- Names of declared nodes, in declaration order. -/
def nodeNames (ds : List TopoDecl) : List String :=
  ds.filterMap fun d =>
    match d with
    | .addNode n _ _ _ => some n
    | _ => none

/-- The class a node name was declared with. -/
def lookupCls (ds : List TopoDecl) (x : String) : Option NodeCls :=
  ds.findSome? fun d =>
    match d with
    | .addNode n c _ _ => if n = x then some c else none
    | _ => none

/-- Link declarations as `(node1, node2, intfName2, params2ip)` tuples. -/
def linkDecls (ds : List TopoDecl) :
    List (String × String × Option String × Option String) :=
  ds.filterMap fun d =>
    match d with
    | .addLink n1 n2 i p => some (n1, n2, i, p)
    | _ => none

/-- The explicitly named interfaces of node `x`, in declaration order
(every named interface in the source is an `intfName2`). -/
def intfsOf (ds : List TopoDecl) (x : String) : List String :=
  (linkDecls ds).filterMap fun l =>
    match l with
    | (_, n2, some i, _) => if n2 = x then some i else none
    | _ => none

/-- The first (default) named interface of node `x`: this is the interface
Mininet applies a node-level `ip=` option to. -/
def firstIntfOf (ds : List TopoDecl) (x : String) : Option String :=
  (intfsOf ds x).head?

/-- One IP/prefix assignment to a concrete interface. -/
structure IpAssign where
  node : String
  intf : String
  ip : String
deriving DecidableEq, Repr

/-- All IP/prefix string assignments made by the declarations, in order:
a node-level `ip=` option assigns to the node's default (first) interface,
and a link's `params2` ip assigns to that link's `intfName2`. -/
def ipAssignments (ds : List TopoDecl) : List IpAssign :=
  ds.foldr
    (fun d acc =>
      match d with
      | .addNode n _ (some ip) _ =>
        ⟨n, (firstIntfOf ds n).getD (n ++ "-eth0"), ip⟩ :: acc
      | .addNode _ _ none _ => acc
      | .addLink _ n2 (some i) (some ip) => ⟨n2, i, ip⟩ :: acc
      | .addLink _ _ _ _ => acc)
    []

/-- The distinct IP/prefix strings assigned to interface `i`. -/
def ipsOfIntf (ds : List TopoDecl) (i : String) : List String :=
  (((ipAssignments ds).filter fun a => a.intf = i).map IpAssign.ip) |> dedupKeepFirst

/-- The `(node, interface)` attachments hanging off switch `s`. -/
def switchAttached (ds : List TopoDecl) (s : String) :
    List (String × Option String) :=
  (linkDecls ds).filterMap fun l =>
    match l with
    | (n1, n2, i, _) => if n1 = s then some (n2, i) else none

/-- Host declarations `(name, ip, defaultRoute)`. -/
def hostDecls (ds : List TopoDecl) :
    List (String × Option String × Option String) :=
  ds.filterMap fun d =>
    match d with
    | .addNode n .host ip dr => some (n, ip, dr)
    | _ => none

/-! ## Lifecycle hooks of `LinuxRouter` as event traces -/

/-- An observable event of a node's lifecycle hooks: the base-class
`Node.config` call, a `self.cmd(...)` shell command, and the base-class
`Node.terminate` call (which tears down the node's namespace). -/
inductive Event
  | baseConfig
  | cmd (s : String)
  | baseTerminate
deriving DecidableEq, Repr

/-- Events emitted by `config()` for each node class.  `LinuxRouter.config`
calls `super().config(**params)` first and then
`self.cmd('sysctl net.ipv4.ip_forward=1')`. -/
def configEvents : NodeCls → List Event
  | .linuxRouter => [.baseConfig, .cmd "sysctl net.ipv4.ip_forward=1"]
  | _ => [.baseConfig]

/-- Events emitted by `terminate()` for each node class.
`LinuxRouter.terminate` runs `self.cmd('sysctl net.ipv4.ip_forward=0')`
first and then `super().terminate()`. -/
def terminateEvents : NodeCls → List Event
  | .linuxRouter => [.cmd "sysctl net.ipv4.ip_forward=0", .baseTerminate]
  | _ => [.baseTerminate]

/-- The forwarding-relevant state of one node's namespace. -/
structure NsState where
  ipForward : Nat
  live : Bool
deriving DecidableEq, Repr

/-- Effect of one lifecycle event on the namespace state: the two `sysctl`
commands write the `ip_forward` flag, `Node.terminate` destroys the
namespace, other events leave this state untouched. -/
def stepEvent (st : NsState) : Event → NsState
  | .baseConfig => st
  | .cmd s =>
    if s = "sysctl net.ipv4.ip_forward=1" then { st with ipForward := 1 }
    else if s = "sysctl net.ipv4.ip_forward=0" then { st with ipForward := 0 }
    else st
  | .baseTerminate => { st with live := false }

/-- Run a trace of lifecycle events from a state. -/
def runEvents (st : NsState) (es : List Event) : NsState :=
  es.foldl stepEvent st

/-- A freshly created namespace: forwarding disabled, namespace live. -/
def initNs : NsState := ⟨0, true⟩

/-- Namespace state of a node of class `c` after `start()` has invoked its
`config()` hook. -/
def afterStart (c : NodeCls) : NsState :=
  runEvents initNs (configEvents c)

/-- Does router `rn` (by its declared assignments) own a /24 subnet
containing the address of CIDR string `s`? -/
def hasConnectedNet (ds : List TopoDecl) (rn : String) (s : String) : Bool :=
  (ipAssignments ds).any fun a => a.node = rn && same24 a.ip s

/-- Can node `rn`, after `start()`, forward IP traffic between the subnets
of `src` and `dst` (both CIDR strings)?  Requires `ip_forward = 1` in its
namespace and a directly connected subnet for both endpoints. -/
def canForward (ds : List TopoDecl) (rn src dst : String) : Bool :=
  match lookupCls ds rn with
  | some c =>
    (afterStart c).ipForward == 1 && hasConnectedNet ds rn src
      && hasConnectedNet ds rn dst
  | none => false

/-- The /24 network numbers directly connected to router `rn`, derived from
its interface assignments (one per assigned interface subnet, deduplicated):
these are the directly-connected route entries the kernel creates. -/
def connectedNets (ds : List TopoDecl) (rn : String) : List Nat :=
  (((ipAssignments ds).filter fun a => a.node = rn).filterMap fun a =>
    match parseCidr a.ip with
    | some (ip, _) => some (networkOf ip 24)
    | none => none) |> dedupKeepFirst

/-! ## The `run()` entry point as an ordered step list -/

/-- One step of the script's `run()` function. -/
inductive RunStep
  | buildTopo
  | netStart
  | nodeCmd (node : String) (command : String)
  | cli
  | netStop
deriving DecidableEq, Repr

/-- The ordered sequence of operations `run()` performs: build the topology
and the Mininet object, `net.start()`, three per-node commands, the
interactive `CLI(net)` session, then `net.stop()`. -/
def run : List RunStep :=
  [ .buildTopo,
    .netStart,
    .nodeCmd "r0" "route",
    .nodeCmd "h2" "nohup python -m SimpleHTTPServer 80 &",
    .nodeCmd "h1" "wget http://10.0.2.100/ubuntu-18.04.4-live-server-amd64.iso",
    .cli,
    .netStop ]

/-- Is a run step a per-node command execution? -/
def isNodeCmd : RunStep → Bool
  | .nodeCmd _ _ => true
  | _ => false

/-- Indices of the steps of `run` satisfying `p`. -/
def idxsWhere (p : RunStep → Bool) : List Nat :=
  (List.range run.length).filter fun i => p (run.getD i .cli)

/-! ## Undirected graph structure of the declared topology -/

/-- The node-name endpoint pairs of all declared links. -/
def linkPairs (ds : List TopoDecl) : List (String × String) :=
  (linkDecls ds).map fun l => (l.1, l.2.1)

/-- Neighbors of `x` in the undirected link graph. -/
def neighbors (ds : List TopoDecl) (x : String) : List String :=
  (linkPairs ds).foldr
    (fun pq acc =>
      if pq.1 = x then pq.2 :: acc
      else if pq.2 = x then pq.1 :: acc else acc)
    []

/-- One breadth step: add all neighbors of the current set. -/
def expandReach (ds : List TopoDecl) (acc : List String) : List String :=
  (acc ++ acc.foldr (fun a r => neighbors ds a ++ r) []) |> dedupKeepFirst

/-- Nodes reachable from the set `acc` in at most `k` link hops. -/
def reachN (ds : List TopoDecl) : Nat → List String → List String
  | 0, acc => acc
  | k + 1, acc => reachN ds k (expandReach ds acc)

/-- Do two link endpoint pairs denote the same undirected edge? -/
def sameEdge (e f : String × String) : Bool :=
  (e.1 = f.1 && e.2 = f.2) || (e.1 = f.2 && e.2 = f.1)

/-- No undirected edge occurs twice in the list. -/
def noDupEdges : List (String × String) → Bool
  | [] => true
  | e :: es => !(es.any (sameEdge e)) && noDupEdges es

/-! ## Further derived checkers used by the claims -/

/-- Names of nodes declared with `cls=LinuxRouter`, in order. -/
def routerNames (ds : List TopoDecl) : List String :=
  ds.filterMap fun d =>
    match d with
    | .addNode n .linuxRouter _ _ => some n
    | _ => none

/-- The node-level `ip=` option a node was declared with. -/
def lookupNodeIp (ds : List TopoDecl) (x : String) : Option String :=
  ds.findSome? fun d =>
    match d with
    | .addNode n _ ip _ => if n = x then ip else none
    | _ => none

/-- All `intfName2` interface names appearing across link declarations. -/
def namedIntfs (ds : List TopoDecl) : List String :=
  (linkDecls ds).filterMap fun l => l.2.2.1

/-- All IP/prefix strings assigned by the declarations, in order. -/
def ipStrings (ds : List TopoDecl) : List String :=
  (ipAssignments ds).map IpAssign.ip

/-- How many times the IP/prefix string `s` is assigned. -/
def countIp (ds : List TopoDecl) (s : String) : Nat :=
  ((ipStrings ds).filter fun t => t = s).length

/-- Any two assignments that agree on the IP string target the same
interface (no IP/prefix duplicated across two distinct interfaces). -/
def distinctIntfDistinctIp (ds : List TopoDecl) : Bool :=
  (ipAssignments ds).all fun a =>
    (ipAssignments ds).all fun b => a.intf == b.intf || !(a.ip == b.ip)

/-- Does the `defaultRoute` string `dr` of a host with primary CIDR `hip`
name, as its gateway, the exact address of a LinuxRouter interface whose
/24 subnet contains `hip`? -/
def hostDefaultRouteOk (ds : List TopoDecl) (hip dr : String) : Bool :=
  match gatewayOf dr, parseCidr hip with
  | some g, some (hip4, _) =>
    (ipAssignments ds).any fun a =>
      lookupCls ds a.node == some NodeCls.linuxRouter &&
        match parseCidr a.ip with
        | some (rip, _) => rip == g && networkOf rip 24 == networkOf hip4 24
        | none => false
  | _, _ => false

/-- The lifecycle property claim C1 asserts of a router class: `config`
runs the enabling `sysctl` after the base config and leaves
`ip_forward = 1`; `terminate` runs the disabling `sysctl` before the base
teardown, and at every point of the teardown trace where the namespace has
been destroyed, `ip_forward` already reads `0`. -/
def routerLifecycleOk (c : NodeCls) : Prop :=
  configEvents c = [Event.baseConfig, Event.cmd "sysctl net.ipv4.ip_forward=1"] ∧
  (afterStart c).ipForward = 1 ∧
  terminateEvents c =
    [Event.cmd "sysctl net.ipv4.ip_forward=0", Event.baseTerminate] ∧
  ∀ k : Fin ((terminateEvents c).length + 1),
    (runEvents (afterStart c) ((terminateEvents c).take k.val)).live = false →
    (runEvents (afterStart c) ((terminateEvents c).take k.val)).ipForward = 0

/-- Claim C2 as stated: `r0` has exactly the three interfaces
`r0-eth1 (192.168.1.1/24)`, `r0-eth2 (172.16.0.1/12)`, `r0-eth3 (10.0.0.1/8)`,
with three hosts `192.168.1.100/24`, `172.16.0.100/12`, `10.0.0.100/8`, and
three directly-connected subnet entries. -/
def claimC2Stated : Bool :=
  intfsOf theTopo "r0" == ["r0-eth1", "r0-eth2", "r0-eth3"] &&
  ipsOfIntf theTopo "r0-eth1" == ["192.168.1.1/24"] &&
  ipsOfIntf theTopo "r0-eth2" == ["172.16.0.1/12"] &&
  ipsOfIntf theTopo "r0-eth3" == ["10.0.0.1/8"] &&
  (ipStrings theTopo).contains "192.168.1.100/24" &&
  (ipStrings theTopo).contains "172.16.0.100/12" &&
  (ipStrings theTopo).contains "10.0.0.100/8" &&
  (connectedNets theTopo "r0").length == 3

/-- Claim C4 as stated: some declared link joins `r0` and `s3`, and the IP
string `10.0.1.1/24` is assigned to two distinct interfaces. -/
def claimC4Stated : Bool :=
  ((linkPairs theTopo).any fun pq =>
    (pq.1 == "r0" && pq.2 == "s3") || (pq.1 == "s3" && pq.2 == "r0")) &&
  ((ipAssignments theTopo).any fun a =>
    (ipAssignments theTopo).any fun b =>
      a.ip == "10.0.1.1/24" && b.ip == "10.0.1.1/24" && !(a.intf == b.intf))

/-- Claim C9 as stated: no IP string is shared by two distinct interfaces,
and the only IP string assigned more than once is `10.0.1.1/24`. -/
def claimC9Stated : Bool :=
  distinctIntfDistinctIp theTopo &&
  ((ipStrings theTopo).all fun s =>
    decide (countIp theTopo s ≤ 1) || s == "10.0.1.1/24")

/-! ## Claims -/

/-- C1: every Router node of the declared topology (exactly `r0` and `r1`,
the nodes declared with `cls=LinuxRouter`) has, after `start()` has run its
`config()` hook, `ip_forward = 1` in its namespace (the hook runs
`sysctl net.ipv4.ip_forward=1` after the base config), and during `stop()`
its `terminate()` hook sets `ip_forward = 0` before the base teardown
destroys the namespace: whenever the namespace is observed destroyed along
the teardown trace, `ip_forward` already reads `0`. -/
theorem c1_router_forwarding_lifecycle (n : String) (c : NodeCls)
    (hn : lookupCls theTopo n = some c) (hc : c = NodeCls.linuxRouter) :
    routerLifecycleOk c ∧ routerNames theTopo = ["r0", "r1"] := by
  subst hc
  exact ⟨⟨rfl, rfl, rfl, by decide⟩, by decide⟩

/-- Witness for C1 at the concrete router `r0`. -/
theorem c1_router_forwarding_lifecycle_witness :
    lookupCls theTopo "r0" = some NodeCls.linuxRouter ∧
    (routerLifecycleOk NodeCls.linuxRouter ∧
      routerNames theTopo = ["r0", "r1"]) :=
  ⟨by decide,
    c1_router_forwarding_lifecycle "r0" NodeCls.linuxRouter (by decide) rfl⟩

/-- C2 counterexample: the claim as stated is false on `build()`; in
particular `r0`'s named interfaces are exactly `r0-eth1` and `r0-eth2`
(there is no `r0-eth3`), and `r0-eth1` carries `10.0.0.1/24`, not
`192.168.1.1/24`. -/
theorem c2_stated_false :
    claimC2Stated = false ∧
    intfsOf theTopo "r0" = ["r0-eth1", "r0-eth2"] ∧
    ipsOfIntf theTopo "r0-eth1" = ["10.0.0.1/24"] := by
  exact ⟨by decide, by decide, by decide⟩

/-- C2 amended: `r0` has exactly the interfaces `r0-eth1 (10.0.0.1/24)` and
`r0-eth2 (10.0.2.1/24)`, each linked through a dedicated Switch (`s1`, `s2`)
to a Host whose IPs are `10.0.0.100/24` and `10.0.2.100/24` respectively,
each Host carrying a `defaultRoute` via `r0`'s matching interface IP, so
that `r0`'s derived route table holds two directly-connected subnet
entries (`10.0.0.0/24` and `10.0.2.0/24`). -/
theorem c2_r0_topology_amended :
    intfsOf theTopo "r0" = ["r0-eth1", "r0-eth2"] ∧
    ipsOfIntf theTopo "r0-eth1" = ["10.0.0.1/24"] ∧
    ipsOfIntf theTopo "r0-eth2" = ["10.0.2.1/24"] ∧
    switchAttached theTopo "s1" =
      [("r0", some "r0-eth1"), ("h1", some "h1-eth0")] ∧
    switchAttached theTopo "s2" =
      [("r0", some "r0-eth2"), ("h2", some "h2-eth0")] ∧
    ipsOfIntf theTopo "h1-eth0" = ["10.0.0.100/24"] ∧
    ipsOfIntf theTopo "h2-eth0" = ["10.0.2.100/24"] ∧
    lookupNodeIp theTopo "h1" = some "10.0.0.100/24" ∧
    lookupNodeIp theTopo "h2" = some "10.0.2.100/24" ∧
    hostDefaultRouteOk theTopo "10.0.0.100/24" "via 10.0.0.1" = true ∧
    hostDefaultRouteOk theTopo "10.0.2.100/24" "via 10.0.2.1" = true ∧
    connectedNets theTopo "r0" =
      [networkOf ⟨10, 0, 0, 1⟩ 24, networkOf ⟨10, 0, 2, 1⟩ 24] ∧
    (connectedNets theTopo "r0").length = 2 := by
  refine ⟨rfl, rfl, rfl, rfl, rfl, rfl, rfl, rfl, rfl, ?_, ?_, ?_, rfl⟩
  · decide
  · decide
  · decide

/-- C3: in the declared two-router topology, `h1` has exactly the two
interfaces `h1-eth0` (carrying `10.0.0.100/24`, on `r0-eth1`'s
`10.0.0.0/24` subnet) and `h1-eth1` (`10.0.1.100/24`, linked through switch
`s3`, on `r1-eth1`'s `10.0.1.0/24` subnet); `h2`'s second interface
`h2-eth1` (`10.0.3.100/24`) is linked through switch `s4`, which also
attaches `r1-eth2`; `r1` is declared with `cls=LinuxRouter`, so after
`start()` its namespace has `ip_forward = 1` and it can forward traffic
between the subnets of `h1-eth1` and `h2-eth1`. -/
theorem c3_two_router_h1_h2_via_r1 :
    intfsOf theTopo "h1" = ["h1-eth0", "h1-eth1"] ∧
    ipsOfIntf theTopo "h1-eth0" = ["10.0.0.100/24"] ∧
    same24 "10.0.0.100/24" "10.0.0.1/24" = true ∧
    ipsOfIntf theTopo "r0-eth1" = ["10.0.0.1/24"] ∧
    ipsOfIntf theTopo "h1-eth1" = ["10.0.1.100/24"] ∧
    switchAttached theTopo "s3" =
      [("r1", some "r1-eth1"), ("h1", some "h1-eth1")] ∧
    ipsOfIntf theTopo "r1-eth1" = ["10.0.1.1/24"] ∧
    same24 "10.0.1.100/24" "10.0.1.1/24" = true ∧
    ipsOfIntf theTopo "h2-eth1" = ["10.0.3.100/24"] ∧
    switchAttached theTopo "s4" =
      [("r1", some "r1-eth2"), ("h2", some "h2-eth1")] ∧
    lookupCls theTopo "r1" = some NodeCls.linuxRouter ∧
    (afterStart NodeCls.linuxRouter).ipForward = 1 ∧
    canForward theTopo "r1" "10.0.1.100/24" "10.0.3.100/24" = true := by
  refine ⟨rfl, rfl, ?_, rfl, rfl, rfl, rfl, ?_, rfl, rfl, ?_, rfl, ?_⟩
  · decide
  · decide
  · decide
  · decide

/-- C4 counterexample: the claim as stated is false on `build()`: no
declared link joins `r0` and `s3` (the only nodes attached to `s3` are `r1`
and `h1`), and `10.0.1.1/24` is not assigned to two distinct interfaces. -/
theorem c4_stated_false :
    claimC4Stated = false ∧
    switchAttached theTopo "s3" =
      [("r1", some "r1-eth1"), ("h1", some "h1-eth1")] := by
  exact ⟨by decide, rfl⟩

/-- C4 amended: `r1-eth1` is wired on the `s3` link with explicit IP
`10.0.1.1/24`, which equals the node-level default IP declared for `r1`
(not an IP declared on any `r0` link: the `s3` link connects `s3` to `r1`);
both assignments of `10.0.1.1/24` target the same interface `r1-eth1`, so
no IP/prefix is duplicated across two distinct interfaces. -/
theorem c4_r1_eth1_amended :
    TopoDecl.addLink "s3" "r1" (some "r1-eth1") (some "10.0.1.1/24")
      ∈ theTopo ∧
    lookupNodeIp theTopo "r1" = some "10.0.1.1/24" ∧
    ((linkPairs theTopo).any fun pq =>
      (pq.1 == "r0" && pq.2 == "s3") || (pq.1 == "s3" && pq.2 == "r0"))
      = false ∧
    ((ipAssignments theTopo).filter fun a => a.ip = "10.0.1.1/24") =
      [⟨"r1", "r1-eth1", "10.0.1.1/24"⟩, ⟨"r1", "r1-eth1", "10.0.1.1/24"⟩] ∧
    distinctIntfDistinctIp theTopo = true := by
  refine ⟨?_, rfl, ?_, ?_, ?_⟩
  · decide
  · decide
  · decide
  · decide

/-- C5: the declared topology satisfies the structural invariants: the
eight node names are pairwise distinct, no link is a self-loop, no
undirected edge occurs twice (the graph is simple), the eight explicitly
named interfaces each participate in exactly one link, and every node is
reachable from `r0` through the links (the graph is connected). -/
theorem c5_structural_invariants :
    nodeNames theTopo = ["r0", "r1", "s1", "s2", "s3", "s4", "h1", "h2"] ∧
    allDistinct (nodeNames theTopo) = true ∧
    ((linkPairs theTopo).all fun pq => !(pq.1 == pq.2)) = true ∧
    noDupEdges (linkPairs theTopo) = true ∧
    namedIntfs theTopo =
      ["r0-eth1", "r0-eth2", "r1-eth1", "r1-eth2",
       "h1-eth0", "h2-eth0", "h1-eth1", "h2-eth1"] ∧
    allDistinct (namedIntfs theTopo) = true ∧
    ((nodeNames theTopo).all fun n =>
      (reachN theTopo 8 ["r0"]).contains n) = true := by
  refine ⟨rfl, ?_, ?_, ?_, rfl, ?_, ?_⟩
  · decide
  · decide
  · decide
  · decide
  · decide

/-- C6: every Host declared by `build()` carries an explicit `defaultRoute`
string of the form `via G` where `G` is the exact address of a LinuxRouter
interface whose /24 subnet contains the host's primary interface IP: `h1`
(`10.0.0.100/24`) routes via `10.0.0.1` = `r0-eth1`, and `h2`
(`10.0.2.100/24`) routes via `10.0.2.1` = `r0-eth2`. -/
theorem c6_host_default_routes :
    hostDecls theTopo =
      [("h1", some "10.0.0.100/24", some "via 10.0.0.1"),
       ("h2", some "10.0.2.100/24", some "via 10.0.2.1")] ∧
    ((hostDecls theTopo).all fun h =>
      match h with
      | (_, some hip, some dr) => hostDefaultRouteOk theTopo hip dr
      | _ => false) = true ∧
    gatewayOf "via 10.0.0.1" = (parseCidr "10.0.0.1/24").map Prod.fst ∧
    ipsOfIntf theTopo "r0-eth1" = ["10.0.0.1/24"] ∧
    gatewayOf "via 10.0.2.1" = (parseCidr "10.0.2.1/24").map Prod.fst ∧
    ipsOfIntf theTopo "r0-eth2" = ["10.0.2.1/24"] ∧
    same24 "10.0.0.100/24" "10.0.0.1/24" = true ∧
    same24 "10.0.2.100/24" "10.0.2.1/24" = true := by
  refine ⟨rfl, ?_, ?_, rfl, ?_, rfl, ?_, ?_⟩
  · decide
  · decide
  · decide
  · decide
  · decide

/-- C7: `run()` is a strictly ordered sequence of seven steps: it builds
the topology first, calls `net.start()` exactly once (at index 1) before
every per-node command (indices 2–4: the route inspection on `r0`, the HTTP
server on `h2`, the `wget` on `h1`) and before the interactive CLI session
(index 5), and calls `net.stop()` exactly once as its final action (index
6), so stop never precedes start and no node command runs outside the
start/stop window. -/
theorem c7_run_lifecycle_order :
    run.length = 7 ∧
    run.head? = some RunStep.buildTopo ∧
    idxsWhere (fun s => s == RunStep.netStart) = [1] ∧
    idxsWhere isNodeCmd = [2, 3, 4] ∧
    idxsWhere (fun s => s == RunStep.cli) = [5] ∧
    idxsWhere (fun s => s == RunStep.netStop) = [6] ∧
    run.getLast? = some RunStep.netStop ∧
    ((idxsWhere isNodeCmd ++ idxsWhere (fun s => s == RunStep.cli)).all
      fun i => decide (1 < i) && decide (i < 6)) = true := by
  refine ⟨rfl, rfl, ?_, ?_, ?_, ?_, rfl, ?_⟩
  · decide
  · decide
  · decide
  · decide
  · decide

/-- C8: every `addLink` call in `build()` has a Switch as its first
endpoint and a non-switch node (a LinuxRouter or a Host) as its second
endpoint, so the declared graph is bipartite between switch nodes and
non-switch nodes. -/
theorem c8_links_switch_to_nonswitch :
    ((linkDecls theTopo).all fun l =>
      (lookupCls theTopo l.1 == some NodeCls.switch) &&
      (lookupCls theTopo l.2.1 == some NodeCls.linuxRouter ||
        lookupCls theTopo l.2.1 == some NodeCls.host)) = true := by
  decide

/-- C9 counterexample: the claim as stated is false on `build()`: the IP
string `10.0.0.1/24` (the `defaultIP` local, assigned both as `r0`'s
node-level ip and as the explicit `params2` ip of `r0-eth1`) also appears
twice, so `10.0.1.1/24` is not the only IP string appearing twice. -/
theorem c9_stated_false :
    claimC9Stated = false ∧
    countIp theTopo "10.0.0.1/24" = 2 ∧
    ("10.0.0.1/24" = "10.0.1.1/24") = False := by
  refine ⟨by decide, by decide, ?_⟩
  simp

/-- C9 amended: all IP/prefix strings assigned to pairwise-distinct
interfaces are pairwise distinct; exactly two IP strings appear twice,
`10.0.0.1/24` and `10.0.1.1/24`, and each is assigned twice to a single
interface (`r0-eth1` and `r1-eth1` respectively), never to two distinct
interfaces. -/
theorem c9_ip_uniqueness_amended :
    distinctIntfDistinctIp theTopo = true ∧
    ((ipStrings theTopo).all fun s =>
      decide (countIp theTopo s ≤ 1) ||
        (s == "10.0.0.1/24" || s == "10.0.1.1/24")) = true ∧
    countIp theTopo "10.0.0.1/24" = 2 ∧
    countIp theTopo "10.0.1.1/24" = 2 ∧
    (((ipAssignments theTopo).filter fun a => a.ip = "10.0.0.1/24").all
      fun a => a.intf == "r0-eth1") = true ∧
    (((ipAssignments theTopo).filter fun a => a.ip = "10.0.1.1/24").all
      fun a => a.intf == "r1-eth1") = true := by
  refine ⟨?_, ?_, ?_, ?_, ?_, ?_⟩
  · decide
  · decide
  · decide
  · decide
  · decide
  · decide

/-- C10: `NetworkTopo.build` is deterministic and ignores its `**_opts`
keyword arguments: any two invocations, whatever keyword arguments are
supplied, declare the identical ordered sequence of nodes, switches,
hosts, and links. -/
theorem c10_build_ignores_opts (o₁ o₂ : Opts) :
    NetworkTopo.build o₁ = NetworkTopo.build o₂ := rfl

end Sample
